import Mathlib

/-!
Shallow embedding of the tab-navigation shell of the figma-design-demo
repository: the custom tab bar (CustomTabBar.tsx), its press handler
`handleTabPress`, the route-to-icon and route-to-label mappers, the
tab layout registration (_layout.tsx) and the color palette table
(constants/Colors.ts).  All definitions are translated directly from the
TypeScript source; theorems settle the specification claims about them.
-/

set_option maxRecDepth 2048

namespace FigmaTabs

/-- Theme mode, the key of the Colors table (constants/Colors.ts). -/
inductive ColorScheme where
  | light
  | dark
deriving DecidableEq, Repr

/-- The named colors of one theme variant (constants/Colors.ts). -/
structure Palette where
  text : String
  background : String
  tint : String
  icon : String
  tabIconDefault : String
  tabIconSelected : String
  tabBarBackground : String
  primaryOrange : String
deriving DecidableEq, Repr

/-- The static Colors table of constants/Colors.ts, keyed by theme mode. -/
def Colors : ColorScheme → Palette
  | ColorScheme.light =>
    { text := "#11181C"
      background := "#fff"
      tint := "#FF6B35"
      icon := "#8E8E93"
      tabIconDefault := "#8E8E93"
      tabIconSelected := "#000000"
      tabBarBackground := "#FFFFFF"
      primaryOrange := "#FF6B35" }
  | ColorScheme.dark =>
    { text := "#ECEDEE"
      background := "#151718"
      tint := "#FF6B35"
      icon := "#8E8E93"
      tabIconDefault := "#8E8E93"
      tabIconSelected := "#FFFFFF"
      tabBarBackground := "#1C1C1E"
      primaryOrange := "#FF6B35" }

/-- `Colors[colorScheme ?? 'light']` as written in CustomTabBar.tsx line 41:
the ambient color-scheme signal may be absent (`null`/`undefined`, modelled
as `none`); the nullish-coalescing operator falls back to `'light'`. -/
def customTabBarPalette (colorScheme : Option ColorScheme) : Palette :=
  Colors (colorScheme.getD ColorScheme.light)

/-- One route of the navigation state: stable key, name (path segment) and
opaque route params, as consumed by CustomTabBar. -/
structure Route where
  key : String
  name : String
  params : Option String
deriving DecidableEq, Repr

/-- The navigation-engine state snapshot passed to the tab bar on each
render: the ordered route list and the active index. -/
structure NavigationState where
  routes : List Route
  index : Nat
deriving DecidableEq, Repr

/-- `getIconName` of CustomTabBar.tsx (lines 70-85): switch on the route
name with a `house.fill` default branch. -/
def getIconName (routeName : String) : String :=
  if routeName = "index" then "house.fill"
  else if routeName = "recipients" then "person.2.fill"
  else if routeName = "send-money" then "paperplane.fill"
  else if routeName = "track" then "arrow.left.arrow.right"
  else if routeName = "locations" then "location.fill"
  else "house.fill"

/-- `getTabLabel` of CustomTabBar.tsx (lines 90-105): switch on the route
name; the default branch returns the route name itself. -/
def getTabLabel (routeName : String) : String :=
  if routeName = "index" then "Home"
  else if routeName = "recipients" then "Recipients"
  else if routeName = "send-money" then "Send Money"
  else if routeName = "track" then "Track"
  else if routeName = "locations" then "Locations"
  else routeName

/-- The two impact-feedback strengths used by `handleTabPress`. -/
inductive HapticStyle where
  | Light
  | Medium
deriving DecidableEq, Repr

/-- The event record passed to `navigation.emit` in `handleTabPress`
(lines 56-60): type `tabPress`, target the route key, cancelable. -/
structure TabPressEvent where
  type : String
  target : String
  canPreventDefault : Bool
deriving DecidableEq, Repr

/-- The argument pair of a `navigation.navigate(route.name, route.params)`
call (line 63). -/
structure NavigateCall where
  name : String
  params : Option String
deriving DecidableEq, Repr

/-- One observable side effect performed by `handleTabPress`, in order:
a haptic pulse (`Haptics.impactAsync`, fire-and-forget, result discarded),
an event emission (`navigation.emit`), or a navigation-switch request
(`navigation.navigate`). -/
inductive Effect where
  | haptic (style : HapticStyle)
  | emit (event : TabPressEvent)
  | navigate (call : NavigateCall)
deriving DecidableEq, Repr

/-- `handleTabPress` of CustomTabBar.tsx (lines 47-65), as the ordered
trace of its side effects.  `isIOS` models `process.env.EXPO_OS === 'ios'`;
`veto` models the `defaultPrevented` field of the event object returned by
`navigation.emit` (set when a consumer prevents the default action).
The haptic call result is never inspected: only the style reaches the
trace.  -/
def handleTabPress (isIOS : Bool) (veto : Bool) (route : Route)
    (index : Nat) (isFocused : Bool) : List Effect :=
  (if isIOS then
    [Effect.haptic (if index = 2 then HapticStyle.Medium else HapticStyle.Light)]
   else []) ++
  [Effect.emit { type := "tabPress", target := route.key, canPreventDefault := true }] ++
  (if !isFocused && !veto then
    [Effect.navigate { name := route.name, params := route.params }]
   else [])

/-- A press on the tab item rendered at position `i`: the render loop
(line 123) calls `handleTabPress(route, index, isFocused)` with
`isFocused = (state.index === index)` (line 114). -/
def pressTab (isIOS : Bool) (veto : Bool) (state : NavigationState)
    (i : Nat) (h : i < state.routes.length) : List Effect :=
  handleTabPress isIOS veto (state.routes.get ⟨i, h⟩) i (state.index == i)

/-- The navigation-switch requests of a trace. -/
def navigationsOf (trace : List Effect) : List NavigateCall :=
  trace.filterMap fun e =>
    match e with
    | Effect.navigate c => some c
    | _ => none

/-- The tab-press emissions of a trace. -/
def emitsOf (trace : List Effect) : List TabPressEvent :=
  trace.filterMap fun e =>
    match e with
    | Effect.emit ev => some ev
    | _ => none

/-- The haptic pulses of a trace. -/
def hapticsOf (trace : List Effect) : List HapticStyle :=
  trace.filterMap fun e =>
    match e with
    | Effect.haptic s => some s
    | _ => none

/-- One rendered tab item, the observable outcome of the body of
`state.routes.map` in CustomTabBar.tsx (lines 113-172): its key, derived
label and icon, focus flag, whether the `centerButton` style is applied,
the background of the circular container (present only on the center
button, line 135), and the colors chosen for icon and label
(lines 139, 148, 158-162). -/
structure TabItem where
  key : String
  label : String
  icon : String
  isFocused : Bool
  isCenterButton : Bool
  circleBackground : Option String
  iconColor : String
  labelColor : String
deriving DecidableEq, Repr

/-- The body of the render loop for the route at position `index`. -/
def renderItem (colors : Palette) (activeIndex : Nat) (index : Nat)
    (route : Route) : TabItem :=
  let isFocused := activeIndex == index
  let isCenterButton := index == 2
  { key := route.key
    label := getTabLabel route.name
    icon := getIconName route.name
    isFocused := isFocused
    isCenterButton := isCenterButton
    circleBackground := if isCenterButton then some colors.primaryOrange else none
    iconColor :=
      if isCenterButton then "#FFFFFF"
      else if isFocused then colors.tabIconSelected else colors.tabIconDefault
    labelColor :=
      if isCenterButton then colors.tabIconSelected
      else if isFocused then colors.tabIconSelected else colors.tabIconDefault }

/-- `state.routes.map((route, index) => ...)` unrolled with an explicit
position counter starting at `i`. -/
def renderItemsFrom (colors : Palette) (activeIndex : Nat) :
    Nat → List Route → List TabItem
  | _, [] => []
  | i, r :: rs =>
    renderItem colors activeIndex i r :: renderItemsFrom colors activeIndex (i + 1) rs

/-- The row of tab items rendered by CustomTabBar for a navigation state. -/
def renderItems (colors : Palette) (state : NavigationState) : List TabItem :=
  renderItemsFrom colors state.index 0 state.routes

/-- One `Tabs.Screen` registration of app/(tabs)/_layout.tsx: the path
segment `name`, the `title` and `tabBarLabel` options, and the (absent)
initial params. -/
structure ScreenRegistration where
  name : String
  title : String
  tabBarLabel : String
  initialParams : Option String
deriving DecidableEq, Repr

/-- The five screens registered, in source order, by `TabLayout`
(app/(tabs)/_layout.tsx lines 27-69).  No screen passes `initialParams`. -/
def tabLayoutScreens : List ScreenRegistration :=
  [ { name := "index", title := "Home", tabBarLabel := "Home", initialParams := none }
  , { name := "recipients", title := "Recipients", tabBarLabel := "Recipients",
      initialParams := none }
  , { name := "send-money", title := "Send Money", tabBarLabel := "Send Money",
      initialParams := none }
  , { name := "track", title := "Track", tabBarLabel := "Track", initialParams := none }
  , { name := "locations", title := "Locations", tabBarLabel := "Locations",
      initialParams := none } ]

/-- The `screenOptions` computed by `TabLayout` (lines 20-24): the tint
colors are looked up in `Colors[colorScheme ?? 'light']`. -/
structure ScreenOpts where
  headerShown : Bool
  tabBarActiveTintColor : String
  tabBarInactiveTintColor : String
deriving DecidableEq, Repr

/-- `TabLayout`'s screen options as a function of the ambient color-scheme
signal (possibly absent). -/
def tabLayoutScreenOpts (colorScheme : Option ColorScheme) : ScreenOpts :=
  { headerShown := false
    tabBarActiveTintColor := (Colors (colorScheme.getD ColorScheme.light)).tabIconSelected
    tabBarInactiveTintColor := (Colors (colorScheme.getD ColorScheme.light)).tabIconDefault }

/-- A concrete five-route navigation state (the route set the layout
registers), used to instantiate the general theorems. -/
def demoState : NavigationState :=
  { routes :=
      [ { key := "index-key", name := "index", params := none }
      , { key := "recipients-key", name := "recipients", params := some "r" }
      , { key := "send-money-key", name := "send-money", params := none }
      , { key := "track-key", name := "track", params := none }
      , { key := "locations-key", name := "locations", params := none } ]
    index := 0 }

/-- A degenerate two-route navigation state, reachable through the widget's
interface (it renders whatever route list the engine supplies). -/
def twoRouteState : NavigationState :=
  { routes :=
      [ { key := "a-key", name := "index", params := none }
      , { key := "b-key", name := "recipients", params := none } ]
    index := 0 }

theorem renderItem_isCenterButton (c : Palette) (a i : Nat) (r : Route) :
    (renderItem c a i r).isCenterButton = (i == 2) := rfl

theorem renderItem_isFocused (c : Palette) (a i : Nat) (r : Route) :
    (renderItem c a i r).isFocused = (a == i) := rfl

theorem renderItemsFrom_length (c : Palette) (a : Nat) (i : Nat) (rs : List Route) :
    (renderItemsFrom c a i rs).length = rs.length := by
  induction rs generalizing i with
  | nil => rfl
  | cons r rs ih => simp [renderItemsFrom, ih]

theorem renderItemsFrom_getElem? (c : Palette) (a : Nat) (i j : Nat) (rs : List Route) :
    (renderItemsFrom c a i rs)[j]? = rs[j]?.map (renderItem c a (i + j)) := by
  induction rs generalizing i j with
  | nil => simp [renderItemsFrom]
  | cons r rs ih =>
    cases j with
    | zero => simp [renderItemsFrom]
    | succ j =>
      rw [renderItemsFrom]
      simp only [List.getElem?_cons_succ, ih]
      have : i + 1 + j = i + (j + 1) := by omega
      rw [this]

theorem renderItemsFrom_countP_center (c : Palette) (a : Nat) (i : Nat)
    (rs : List Route) :
    (renderItemsFrom c a i rs).countP (fun it => it.isCenterButton) =
      if i ≤ 2 ∧ 2 < i + rs.length then 1 else 0 := by
  induction rs generalizing i with
  | nil =>
    have hcond : ¬ (i ≤ 2 ∧ 2 < i + ([] : List Route).length) := by
      simp only [List.length_nil]
      omega
    rw [if_neg hcond]
    rfl
  | cons r rs ih =>
    rw [renderItemsFrom, List.countP_cons, ih]
    simp only [renderItem_isCenterButton, beq_iff_eq, List.length_cons]
    split <;> split <;> split <;> omega

theorem renderItemsFrom_map_center (c : Palette) (a b : Nat) (i : Nat)
    (rs : List Route) :
    (renderItemsFrom c a i rs).map (fun it => it.isCenterButton) =
      (renderItemsFrom c b i rs).map (fun it => it.isCenterButton) := by
  induction rs generalizing i with
  | nil => rfl
  | cons r rs ih =>
    simp [renderItemsFrom, renderItem_isCenterButton, ih]

theorem navigationsOf_handleTabPress (isIOS veto : Bool) (route : Route)
    (index : Nat) (isFocused : Bool) :
    navigationsOf (handleTabPress isIOS veto route index isFocused) =
      if !isFocused && !veto then [{ name := route.name, params := route.params }]
      else [] := by
  cases isIOS <;> cases isFocused <;> cases veto <;>
    simp [handleTabPress, navigationsOf]

/-- C2: pressing an item whose index differs from the active index, when the
emitted tab-press event is not vetoed, produces exactly one
navigation-switch request, addressed to the route at that index by name,
with its params forwarded unchanged. -/
theorem C2_unvetoed_press_navigates_once (isIOS : Bool) (s : NavigationState)
    (i : Nat) (h : i < s.routes.length) (hne : s.index ≠ i) :
    navigationsOf (pressTab isIOS false s i h) =
      [{ name := (s.routes.get ⟨i, h⟩).name
         params := (s.routes.get ⟨i, h⟩).params }] := by
  have hfoc : (s.index == i) = false := by
    simp [hne]
  rw [pressTab, navigationsOf_handleTabPress, hfoc]
  rfl

/-- C2 witness: in the five-route demo state with active index 0, an
unvetoed press at index 1 requests exactly one switch to the `recipients`
route with its params. -/
theorem C2_witness :
    navigationsOf (pressTab false false demoState 1 (by decide)) =
      [{ name := "recipients", params := some "r" }] :=
  C2_unvetoed_press_navigates_once false demoState 1 (by decide) (by decide)

/-- C3: when the consumer vetoes the tab-press default action
(`defaultPrevented` is set), no navigation-switch request is issued. -/
theorem C3_veto_blocks_navigation (isIOS : Bool) (s : NavigationState)
    (i : Nat) (h : i < s.routes.length) :
    navigationsOf (pressTab isIOS true s i h) = [] := by
  rw [pressTab, navigationsOf_handleTabPress]
  simp

/-- C3 witness: a vetoed press at index 1 of the demo state issues no
navigation request. -/
theorem C3_witness :
    navigationsOf (pressTab true true demoState 1 (by decide)) = [] :=
  C3_veto_blocks_navigation true demoState 1 (by decide)

/-- C4: pressing the tab item at the current active index produces no
navigation-switch request, whether or not the event is vetoed. -/
theorem C4_active_press_no_navigation (isIOS veto : Bool) (s : NavigationState)
    (h : s.index < s.routes.length) :
    navigationsOf (pressTab isIOS veto s s.index h) = [] := by
  rw [pressTab, navigationsOf_handleTabPress]
  simp

/-- C4 witness: pressing index 0 (the active index) of the demo state,
unvetoed, issues no navigation request. -/
theorem C4_witness :
    navigationsOf (pressTab false false demoState 0 (by decide)) = [] :=
  C4_active_press_no_navigation false false demoState (by decide)

/-- C9: the default branch of `getTabLabel` is the identity: any route name
outside the five known keys is returned unchanged as the label. -/
theorem C9_unknown_label_is_identity (routeName : String)
    (h1 : routeName ≠ "index") (h2 : routeName ≠ "recipients")
    (h3 : routeName ≠ "send-money") (h4 : routeName ≠ "track")
    (h5 : routeName ≠ "locations") :
    getTabLabel routeName = routeName := by
  simp [getTabLabel, h1, h2, h3, h4, h5]

/-- C9 witness: the unknown key `profile` is rendered with its raw key as
its label. -/
theorem C9_witness : getTabLabel "profile" = "profile" :=
  C9_unknown_label_is_identity "profile" (by decide) (by decide) (by decide)
    (by decide) (by decide)

/-- C1 counterexample: the claim says any key outside the five known keys
maps to the Home fallback pair with label `Home`; the default branch of
`getTabLabel` instead returns the key itself, so at the unknown key
`settings` the label is not `Home`. -/
theorem C1_counterexample : getTabLabel "settings" ≠ "Home" := by decide

/-- C1 amended: the mapper pair is total and returns the documented pairs
on the five known keys; for any other key the icon falls back to
`house.fill` while the label falls back to the key itself (not `Home`). -/
theorem C1_mapper_pairs :
    (getTabLabel "index" = "Home" ∧ getIconName "index" = "house.fill") ∧
    (getTabLabel "recipients" = "Recipients" ∧
      getIconName "recipients" = "person.2.fill") ∧
    (getTabLabel "send-money" = "Send Money" ∧
      getIconName "send-money" = "paperplane.fill") ∧
    (getTabLabel "track" = "Track" ∧
      getIconName "track" = "arrow.left.arrow.right") ∧
    (getTabLabel "locations" = "Locations" ∧
      getIconName "locations" = "location.fill") ∧
    (∀ routeName : String, routeName ≠ "index" → routeName ≠ "recipients" →
      routeName ≠ "send-money" → routeName ≠ "track" → routeName ≠ "locations" →
      getIconName routeName = "house.fill" ∧ getTabLabel routeName = routeName) := by
  refine ⟨by decide, by decide, by decide, by decide, by decide, ?_⟩
  intro routeName h1 h2 h3 h4 h5
  constructor
  · simp [getIconName, h1, h2, h3, h4, h5]
  · simp [getTabLabel, h1, h2, h3, h4, h5]

/-- C1 witness: at the unknown key `history` the mapper returns the
fallback icon `house.fill` and the key itself as label. -/
theorem C1_witness :
    getIconName "history" = "house.fill" ∧ getTabLabel "history" = "history" :=
  C1_mapper_pairs.2.2.2.2.2 "history" (by decide) (by decide) (by decide)
    (by decide) (by decide)

/-- C5 counterexample: the claim quantifies over any ordered route list,
but with a two-route list no rendered item sits at index 2, so no item
carries the center-button styling (the count is 0, not 1). -/
theorem C5_counterexample :
    (renderItems (Colors ColorScheme.light) twoRouteState).countP
      (fun it => it.isCenterButton) ≠ 1 := by decide

/-- C5 amended: for every palette and navigation state whose route list has
at least 3 routes (in particular the five-route list of this app), exactly
one rendered item carries the center-button styling; an item is the center
button exactly when its position is 2, the center button alone gets the
filled `primaryOrange` circular background, every other item's icon is
colored by active/inactive state, and which item is elevated does not
depend on the active index. -/
theorem C5_center_button_unique (colors : Palette) (s : NavigationState)
    (hlen : 3 ≤ s.routes.length) :
    (renderItems colors s).countP (fun it => it.isCenterButton) = 1 ∧
    (∀ j item, (renderItems colors s)[j]? = some item →
      ((item.isCenterButton = true ↔ j = 2) ∧
       item.circleBackground =
         (if j = 2 then some colors.primaryOrange else none) ∧
       (j ≠ 2 → item.iconColor =
         (if s.index = j then colors.tabIconSelected
          else colors.tabIconDefault)))) ∧
    (∀ a : Nat,
      (renderItems colors { routes := s.routes, index := a }).map
          (fun it => it.isCenterButton) =
        (renderItems colors s).map (fun it => it.isCenterButton)) := by
  refine ⟨?_, ?_, ?_⟩
  · rw [renderItems, renderItemsFrom_countP_center]
    have h : (0 ≤ 2 ∧ 2 < 0 + s.routes.length) := by omega
    rw [if_pos h]
  · intro j item hitem
    rw [renderItems, renderItemsFrom_getElem?] at hitem
    cases hr : s.routes[j]? with
    | none =>
      rw [hr] at hitem
      simp at hitem
    | some r =>
      rw [hr] at hitem
      simp only [Option.map_some'] at hitem
      injection hitem with hIt
      subst hIt
      refine ⟨?_, ?_, ?_⟩
      · simp [renderItem]
      · simp [renderItem]
      · intro hj
        simp [renderItem, hj]
  · intro a
    exact renderItemsFrom_map_center colors a s.index 0 s.routes

/-- C5 witness: in the five-route demo state exactly one rendered item
carries the center-button styling. -/
theorem C5_witness :
    (renderItems (Colors ColorScheme.light) demoState).countP
      (fun it => it.isCenterButton) = 1 :=
  (C5_center_button_unique (Colors ColorScheme.light) demoState (by decide)).1

/-- C6: every press — also on the already-active tab, vetoed or not —
emits exactly one cancelable `tabPress` event targeted at the pressed
route's key, and in the effect trace that emission is preceded only by
haptic effects and followed only by navigation effects, so it happens
before any navigation-switch request is considered. -/
theorem C6_emits_one_cancelable_event (isIOS veto : Bool) (route : Route)
    (index : Nat) (isFocused : Bool) :
    emitsOf (handleTabPress isIOS veto route index isFocused) =
      [{ type := "tabPress", target := route.key, canPreventDefault := true }] ∧
    ∃ pre post,
      handleTabPress isIOS veto route index isFocused =
        pre ++
          Effect.emit { type := "tabPress", target := route.key, canPreventDefault := true } ::
            post ∧
      (∀ e ∈ pre, ∃ s, e = Effect.haptic s) ∧
      (∀ e ∈ post, ∃ c, e = Effect.navigate c) := by
  constructor
  · cases isIOS <;> cases isFocused <;> cases veto <;>
      simp [handleTabPress, emitsOf]
  · refine ⟨(if isIOS then
        [Effect.haptic (if index = 2 then HapticStyle.Medium else HapticStyle.Light)]
      else []),
      (if !isFocused && !veto then
        [Effect.navigate { name := route.name, params := route.params }]
      else []), ?_, ?_, ?_⟩
    · simp [handleTabPress]
    · intro e he
      cases isIOS with
      | false => simp at he
      | true =>
        simp at he
        exact ⟨_, he⟩
    · intro e he
      cases isFocused with
      | false =>
        cases veto with
        | false =>
          simp at he
          exact ⟨_, he⟩
        | true => simp at he
      | true => simp at he

/-- C6 witness: pressing the already-active center item emits exactly the
one cancelable `tabPress` event targeted at its key. -/
theorem C6_witness :
    emitsOf (handleTabPress true false
      { key := "send-money-key", name := "send-money", params := none } 2 true) =
      [{ type := "tabPress", target := "send-money-key",
         canPreventDefault := true }] :=
  (C6_emits_one_cancelable_event true false
    { key := "send-money-key", name := "send-money", params := none } 2 true).1

/-- C7: on iOS every press triggers exactly one haptic pulse whose strength
depends only on the pressed position — Medium at index 2, Light elsewhere —
and off iOS no pulse is triggered; only the style reaches the trace, the
call's result is never inspected. -/
theorem C7_haptic_pulse (veto : Bool) (route : Route) (index : Nat)
    (isFocused : Bool) :
    hapticsOf (handleTabPress true veto route index isFocused) =
      [if index = 2 then HapticStyle.Medium else HapticStyle.Light] ∧
    hapticsOf (handleTabPress false veto route index isFocused) = [] := by
  constructor <;> cases isFocused <;> cases veto <;>
    simp [handleTabPress, hapticsOf]

/-- C8: the tab layout registers exactly five screens, in order, under the
path segments `index`, `recipients`, `send-money`, `track`, `locations`,
each carrying only a title and a tab label (both agreeing with the
route-label mapper) and no initial params. -/
theorem C8_screen_registrations :
    tabLayoutScreens.length = 5 ∧
    tabLayoutScreens.map (fun scr => scr.name) =
      ["index", "recipients", "send-money", "track", "locations"] ∧
    tabLayoutScreens.map (fun scr => scr.initialParams) =
      [none, none, none, none, none] ∧
    tabLayoutScreens.map (fun scr => (scr.title, scr.tabBarLabel)) =
      tabLayoutScreens.map (fun scr => (getTabLabel scr.name, getTabLabel scr.name)) := by
  refine ⟨rfl, rfl, rfl, by decide⟩

/-- C10: when the ambient color-scheme signal is absent, both the tab bar
palette and the layout's screen options fall back to the light palette, and
the palette lookup is total: for every optional scheme it yields the light
or the dark palette. -/
theorem C10_palette_fallback_total :
    customTabBarPalette none = Colors ColorScheme.light ∧
    tabLayoutScreenOpts none = tabLayoutScreenOpts (some ColorScheme.light) ∧
    (∀ cs : Option ColorScheme,
      customTabBarPalette cs = Colors ColorScheme.light ∨
      customTabBarPalette cs = Colors ColorScheme.dark) ∧
    (∀ cs : Option ColorScheme,
      tabLayoutScreenOpts cs = tabLayoutScreenOpts (some (cs.getD ColorScheme.light))) := by
  refine ⟨rfl, rfl, ?_, ?_⟩
  · intro cs
    cases cs with
    | none => exact Or.inl rfl
    | some c =>
      cases c with
      | light => exact Or.inl rfl
      | dark => exact Or.inr rfl
  · intro cs
    cases cs <;> rfl

end FigmaTabs
